import Mathlib

/-!
Shallow embedding of `sagemaker/workflow/conditions.py`: the condition
expression tree (comparisons, membership, negation, disjunction) and its
rendering into the request structure sent to the workflow service.

Python values relevant to condition operands are modelled by `PyVal`; the
symbolic operand classes (`ExecutionVariable`, `Expression`, `Parameter`,
`Properties`) live outside this module and are modelled as tagged values
carrying their `expr` request structure.  Each Python constructor is embedded
twice: a plain constructor building the node (for callers that supply all
arguments), and a `_call` version over `Option` arguments that reproduces
Python call semantics, where `none` models an omitted argument and a missing
required positional argument is a `TypeError` raised before the body runs.
-/

namespace Conditions

/-- A Python primitive scalar, as in `PrimitiveType = Union[str, int, bool, float]`.
Floats are carried opaquely by their bit pattern and never interpreted
arithmetically. -/
inductive Primitive where
  | str (s : String)
  | int (i : Int)
  | bool (b : Bool)
  | floatBits (bits : Nat)
deriving DecidableEq, Repr

/-- A Python value as seen by this module: primitives, `None`, lists, dicts,
and the four symbolic operand classes.  Modelled from the spec: the external
classes `ExecutionVariable`, `Expression`, `Parameter` and `Properties` each
expose an `expr` accessor yielding their request structure; they are embedded
as tags carrying that structure. -/
inductive PyVal where
  | prim (p : Primitive)
  | noneVal
  | list (xs : List PyVal)
  | dict (kvs : List (String × PyVal))
  | execVar (e : PyVal)
  | expression (e : PyVal)
  | parameter (e : PyVal)
  | propertyVal (e : PyVal)

/-- `ConditionTypeEnum` from the source. -/
inductive ConditionTypeEnum where
  | EQ | GT | GTE | IN | LT | LTE | NOT | OR
deriving DecidableEq, Repr

/-- The `.value` of each enum member: its wire string. -/
def ConditionTypeEnum.value : ConditionTypeEnum → String
  | .EQ => "Equals"
  | .GT => "GreaterThan"
  | .GTE => "GreaterThanOrEqualTo"
  | .IN => "In"
  | .LT => "LessThan"
  | .LTE => "LessThanOrEqualTo"
  | .NOT => "Not"
  | .OR => "Or"

/-- Modelled from the spec: `DefaultEnumMeta` (defined outside this module)
equips the enum with a default-member factory used by the `attr.ib` default of
`Condition.condition_type`; modelled as the first declared member. -/
def ConditionTypeEnum.factory : ConditionTypeEnum := .EQ

/-- The Python attribute access `v.expr`: succeeds exactly on the four symbolic
classes, raises `AttributeError` on every other value. -/
def exprAttr : PyVal → Except String PyVal
  | .execVar e => .ok e
  | .expression e => .ok e
  | .parameter e => .ok e
  | .propertyVal e => .ok e
  | _ => .error "AttributeError: object has no attribute expr"

/-- The `isinstance(value, (ExecutionVariable, Expression, Parameter, Properties))`
test of `primitive_or_expr`. -/
def isSymbolic : PyVal → Bool
  | .execVar _ => true
  | .expression _ => true
  | .parameter _ => true
  | .propertyVal _ => true
  | _ => false

/-- `primitive_or_expr` from the source: return `value.expr` when `value` is an
instance of one of the four symbolic classes, otherwise return `value` itself. -/
def primitive_or_expr : PyVal → PyVal
  | .execVar e => e
  | .expression e => e
  | .parameter e => e
  | .propertyVal e => e
  | v => v

/-- The condition node tree.  The generic comparison stores its
`condition_type` (the attrs base class accepts any member); the membership,
negation and disjunction variants fix theirs (`IN`, `NOT`, `OR`) in their
`__init__`, so it is not stored here. -/
inductive Condition where
  | comparison (condition_type : ConditionTypeEnum) (left right : PyVal)
  | inCond (value : PyVal) (in_values : List PyVal)
  | notCond (expression : Condition)
  | orCond (conditions : List Condition)

mutual
/-- `to_request` of each variant, as written in the source.  An exception in
Python (e.g. `AttributeError` from `self.left.expr` on an operand without an
`expr` attribute) is an `Except.error`; list comprehensions evaluate left to
right and propagate the first exception. -/
def to_request : Condition → Except String PyVal
  | .comparison ct l r =>
    match exprAttr l with
    | .error e => .error e
    | .ok le =>
      .ok (.dict [("Type", .prim (.str ct.value)), ("LeftValue", le),
                  ("RightValue", primitive_or_expr r)])
  | .inCond v vs =>
    match exprAttr v with
    | .error e => .error e
    | .ok ve =>
      .ok (.dict [("Type", .prim (.str ConditionTypeEnum.IN.value)), ("QueryValue", ve),
                  ("Values", .list (vs.map primitive_or_expr))])
  | .notCond c =>
    match to_request c with
    | .error e => .error e
    | .ok r => .ok (.dict [("Type", .prim (.str ConditionTypeEnum.NOT.value)), ("Expression", r)])
  | .orCond cs =>
    match to_request_list cs with
    | .error e => .error e
    | .ok rs => .ok (.dict [("Type", .prim (.str ConditionTypeEnum.OR.value)), ("Conditions", .list rs)])

/-- The comprehension `[condition.to_request() for condition in self.conditions]`. -/
def to_request_list : List Condition → Except String (List PyVal)
  | [] => .ok []
  | c :: cs =>
    match to_request c with
    | .error e => .error e
    | .ok r =>
      match to_request_list cs with
      | .error e => .error e
      | .ok rs => .ok (r :: rs)
end

/-- `ConditionEquals(left, right)`: fixes kind `EQ`. -/
def ConditionEquals (left right : PyVal) : Condition := .comparison .EQ left right

/-- `ConditionGreaterThan(left, right)`: fixes kind `GT`. -/
def ConditionGreaterThan (left right : PyVal) : Condition := .comparison .GT left right

/-- `ConditionGreaterThanOrEqualTo(left, right)`: fixes kind `GTE`. -/
def ConditionGreaterThanOrEqualTo (left right : PyVal) : Condition := .comparison .GTE left right

/-- `ConditionLessThan(left, right)`: fixes kind `LT`. -/
def ConditionLessThan (left right : PyVal) : Condition := .comparison .LT left right

/-- `ConditionLessThanOrEqualTo(left, right)`: fixes kind `LTE`. -/
def ConditionLessThanOrEqualTo (left right : PyVal) : Condition := .comparison .LTE left right

/-- `ConditionIn(value, in_values)`: fixes kind `IN`, stores both arguments
unchanged. -/
def ConditionIn (value : PyVal) (in_values : List PyVal) : Condition := .inCond value in_values

/-- `ConditionNot(expression)`: fixes kind `NOT`. -/
def ConditionNot (expression : Condition) : Condition := .notCond expression

/-- `ConditionOr(conditions)`: fixes kind `OR` and stores `conditions or []`
(Python truthiness: an empty list collapses to `[]`). -/
def ConditionOr (conditions : List Condition) : Condition :=
  .orCond (if conditions.isEmpty then [] else conditions)

/-- The `TypeError` Python raises when a required positional argument is
omitted at a call site. -/
def tyErr : Except String Condition := .error "TypeError: missing required positional argument"

/-- Calling the attrs-generated `ConditionComparison(...)` directly: all three
fields carry defaults (`condition_type` from the enum factory, `left` and
`right` default `None`), so the call always succeeds. -/
def ConditionComparison_call (condition_type : Option ConditionTypeEnum)
    (left right : Option PyVal) : Except String Condition :=
  .ok (.comparison (condition_type.getD ConditionTypeEnum.factory)
        (left.getD .noneVal) (right.getD .noneVal))

/-- Calling `ConditionEquals(left, right)`: both arguments are required
positional parameters. -/
def ConditionEquals_call (left right : Option PyVal) : Except String Condition :=
  match left, right with
  | some l, some r => .ok (ConditionEquals l r)
  | _, _ => tyErr

/-- Calling `ConditionGreaterThan(left, right)`. -/
def ConditionGreaterThan_call (left right : Option PyVal) : Except String Condition :=
  match left, right with
  | some l, some r => .ok (ConditionGreaterThan l r)
  | _, _ => tyErr

/-- Calling `ConditionGreaterThanOrEqualTo(left, right)`. -/
def ConditionGreaterThanOrEqualTo_call (left right : Option PyVal) : Except String Condition :=
  match left, right with
  | some l, some r => .ok (ConditionGreaterThanOrEqualTo l r)
  | _, _ => tyErr

/-- Calling `ConditionLessThan(left, right)`. -/
def ConditionLessThan_call (left right : Option PyVal) : Except String Condition :=
  match left, right with
  | some l, some r => .ok (ConditionLessThan l r)
  | _, _ => tyErr

/-- Calling `ConditionLessThanOrEqualTo(left, right)`. -/
def ConditionLessThanOrEqualTo_call (left right : Option PyVal) : Except String Condition :=
  match left, right with
  | some l, some r => .ok (ConditionLessThanOrEqualTo l r)
  | _, _ => tyErr

/-- Calling `ConditionIn(value, in_values)`: both arguments are required
positional parameters; `in_values` is stored without any defaulting. -/
def ConditionIn_call (value : Option PyVal) (in_values : Option (List PyVal)) :
    Except String Condition :=
  match value, in_values with
  | some v, some ivs => .ok (ConditionIn v ivs)
  | _, _ => tyErr

/-- Calling `ConditionNot(expression)`: the argument is a required positional
parameter. -/
def ConditionNot_call (expression : Option Condition) : Except String Condition :=
  match expression with
  | some c => .ok (ConditionNot c)
  | none => tyErr

/-- Calling `ConditionOr(conditions=None)`: the parameter defaults to `None`
and the body stores `conditions or []`, so an omitted argument, an explicit
`None`, and an explicit empty list all store `[]`. -/
def ConditionOr_call (conditions : Option (List Condition)) : Except String Condition :=
  match conditions with
  | none => .ok (.orCond [])
  | some l => .ok (.orCond (if l.isEmpty then [] else l))

mutual
/-- A condition tree is well formed when every comparison left operand and
every membership query value is one of the four symbolic classes (the
documented caller contract: `left`/`value` must expose `expr`). -/
def WellFormedB : Condition → Bool
  | .comparison _ l _ => isSymbolic l
  | .inCond v _ => isSymbolic v
  | .notCond c => WellFormedB c
  | .orCond cs => WellFormedListB cs

/-- `WellFormedB` on every element of a list of conditions. -/
def WellFormedListB : List Condition → Bool
  | [] => true
  | c :: cs => WellFormedB c && WellFormedListB cs
end

/-- A sample symbolic operand: an execution variable whose `expr` is
`{"Get": "x"}`. -/
def xRef : PyVal := .execVar (.dict [("Get", .prim (.str "x"))])

/-- A sample symbolic operand: a parameter whose `expr` is `{"Get": "p"}`. -/
def pRef : PyVal := .parameter (.dict [("Get", .prim (.str "p"))])

/-- On a symbolic value the attribute access `v.expr` succeeds and agrees with
`primitive_or_expr`. -/
theorem exprAttr_of_symbolic (v : PyVal) (h : isSymbolic v = true) :
    exprAttr v = .ok (primitive_or_expr v) := by
  cases v <;> simp_all [isSymbolic, exprAttr, primitive_or_expr]

/-- `conditions or []` is the identity on lists: the stored list equals the
supplied one. -/
theorem ConditionOr_eq_orCond (cs : List Condition) : ConditionOr cs = .orCond cs := by
  cases cs <;> rfl

/-- A successful `to_request_list` run renders the conditions element-wise, in
order. -/
theorem to_request_list_forall2 (cs : List Condition) :
    ∀ rs : List PyVal, to_request_list cs = .ok rs →
      List.Forall₂ (fun c r => to_request c = Except.ok r) cs rs := by
  induction cs with
  | nil =>
    intro rs h
    simp only [to_request_list] at h
    cases h
    exact List.Forall₂.nil
  | cons c cs ih =>
    intro rs h
    cases hc : to_request c with
    | error e =>
      simp only [to_request_list, hc] at h
      exact Except.noConfusion h
    | ok r =>
      cases hcs : to_request_list cs with
      | error e =>
        simp only [to_request_list, hc, hcs] at h
        exact Except.noConfusion h
      | ok rs2 =>
        simp only [to_request_list, hc, hcs] at h
        cases h
        exact List.Forall₂.cons hc (ih _ hcs)

mutual
/-- On a well-formed tree `to_request` always returns a result. -/
theorem render_total_aux : ∀ c : Condition, WellFormedB c = true → ∃ r, to_request c = Except.ok r
  | .comparison ct l r, h =>
    ⟨.dict [("Type", .prim (.str ct.value)), ("LeftValue", primitive_or_expr l),
            ("RightValue", primitive_or_expr r)],
     by simp [to_request, exprAttr_of_symbolic l (by simpa [WellFormedB] using h)]⟩
  | .inCond v vs, h =>
    ⟨.dict [("Type", .prim (.str ConditionTypeEnum.IN.value)), ("QueryValue", primitive_or_expr v),
            ("Values", .list (vs.map primitive_or_expr))],
     by simp [to_request, exprAttr_of_symbolic v (by simpa [WellFormedB] using h)]⟩
  | .notCond c, h =>
    match render_total_aux c (by simpa [WellFormedB] using h) with
    | ⟨r, hr⟩ =>
      ⟨.dict [("Type", .prim (.str ConditionTypeEnum.NOT.value)), ("Expression", r)],
       by simp [to_request, hr]⟩
  | .orCond cs, h =>
    match render_total_list_aux cs (by simpa [WellFormedB] using h) with
    | ⟨rs, hrs⟩ =>
      ⟨.dict [("Type", .prim (.str ConditionTypeEnum.OR.value)), ("Conditions", .list rs)],
       by simp [to_request, hrs]⟩

/-- On a list of well-formed trees `to_request_list` always returns a result. -/
theorem render_total_list_aux :
    ∀ cs : List Condition, WellFormedListB cs = true → ∃ rs, to_request_list cs = Except.ok rs
  | [], _ => ⟨[], rfl⟩
  | c :: cs, h =>
    match render_total_aux c (by simp [WellFormedListB, Bool.and_eq_true] at h; exact h.1),
          render_total_list_aux cs (by simp [WellFormedListB, Bool.and_eq_true] at h; exact h.2) with
    | ⟨r, hr⟩, ⟨rs, hrs⟩ => ⟨r :: rs, by simp [to_request_list, hr, hrs]⟩
end

/-- C1 (counterexample): with a pair of literal operands, rendering a
comparison does not produce the claimed mapping — `self.left.expr` raises an
`AttributeError` on a literal left operand, so `to_request` errors instead. -/
theorem comparison_render_literal_left_fails :
    to_request (ConditionEquals (.prim (.int 1)) (.prim (.int 2))) =
      .error "AttributeError: object has no attribute expr" ∧
    to_request (ConditionEquals (.prim (.int 1)) (.prim (.int 2))) ≠
      .ok (.dict [("Type", .prim (.str "Equals")),
                  ("LeftValue", primitive_or_expr (.prim (.int 1))),
                  ("RightValue", primitive_or_expr (.prim (.int 2)))]) :=
  ⟨rfl, fun h => Except.noConfusion h⟩

/-- C1 (amended): for every pair `(a, b)` whose left element is symbolic
(exposes the expression capability) and each comparison kind K of the five
fixed-kind constructors, rendering `Comparison_K(a, b)` produces exactly the
mapping `Type = wire(K)`, `LeftValue = resolve(a)`, `RightValue = resolve(b)`
(for symbolic `a`, `resolve(a) = a.expr`). -/
theorem comparison_render_symbolic_left (a b : PyVal) (ha : isSymbolic a = true) :
    to_request (ConditionEquals a b) =
      .ok (.dict [("Type", .prim (.str "Equals")), ("LeftValue", primitive_or_expr a),
                  ("RightValue", primitive_or_expr b)]) ∧
    to_request (ConditionGreaterThan a b) =
      .ok (.dict [("Type", .prim (.str "GreaterThan")), ("LeftValue", primitive_or_expr a),
                  ("RightValue", primitive_or_expr b)]) ∧
    to_request (ConditionGreaterThanOrEqualTo a b) =
      .ok (.dict [("Type", .prim (.str "GreaterThanOrEqualTo")), ("LeftValue", primitive_or_expr a),
                  ("RightValue", primitive_or_expr b)]) ∧
    to_request (ConditionLessThan a b) =
      .ok (.dict [("Type", .prim (.str "LessThan")), ("LeftValue", primitive_or_expr a),
                  ("RightValue", primitive_or_expr b)]) ∧
    to_request (ConditionLessThanOrEqualTo a b) =
      .ok (.dict [("Type", .prim (.str "LessThanOrEqualTo")), ("LeftValue", primitive_or_expr a),
                  ("RightValue", primitive_or_expr b)]) := by
  have he := exprAttr_of_symbolic a ha
  refine ⟨?_, ?_, ?_, ?_, ?_⟩ <;>
    simp [to_request, ConditionEquals, ConditionGreaterThan, ConditionGreaterThanOrEqualTo,
          ConditionLessThan, ConditionLessThanOrEqualTo, he, ConditionTypeEnum.value]

/-- Witness for C1 (amended) at a concrete parameter left operand and literal
right operand. -/
theorem comparison_render_symbolic_left_witness :
    isSymbolic pRef = true ∧
    (to_request (ConditionEquals pRef (.prim (.int 7))) =
      .ok (.dict [("Type", .prim (.str "Equals")), ("LeftValue", primitive_or_expr pRef),
                  ("RightValue", primitive_or_expr (.prim (.int 7)))]) ∧
    to_request (ConditionGreaterThan pRef (.prim (.int 7))) =
      .ok (.dict [("Type", .prim (.str "GreaterThan")), ("LeftValue", primitive_or_expr pRef),
                  ("RightValue", primitive_or_expr (.prim (.int 7)))]) ∧
    to_request (ConditionGreaterThanOrEqualTo pRef (.prim (.int 7))) =
      .ok (.dict [("Type", .prim (.str "GreaterThanOrEqualTo")), ("LeftValue", primitive_or_expr pRef),
                  ("RightValue", primitive_or_expr (.prim (.int 7)))]) ∧
    to_request (ConditionLessThan pRef (.prim (.int 7))) =
      .ok (.dict [("Type", .prim (.str "LessThan")), ("LeftValue", primitive_or_expr pRef),
                  ("RightValue", primitive_or_expr (.prim (.int 7)))]) ∧
    to_request (ConditionLessThanOrEqualTo pRef (.prim (.int 7))) =
      .ok (.dict [("Type", .prim (.str "LessThanOrEqualTo")), ("LeftValue", primitive_or_expr pRef),
                  ("RightValue", primitive_or_expr (.prim (.int 7)))])) :=
  ⟨rfl, comparison_render_symbolic_left pRef (.prim (.int 7)) rfl⟩

/-- C2 (counterexample): calling the attrs-generated `ConditionComparison`
constructor with every argument omitted succeeds (the operands default to
`None`, nothing is rejected), and rendering the constructed node is reached
and fails there with an `AttributeError` — failure for missing operands does
occur at render time. -/
theorem comparison_construction_defers_failure :
    (ConditionComparison_call none none none).toOption.isSome = true ∧
    (ConditionComparison_call none none none).toOption.map to_request =
      some (.error "AttributeError: object has no attribute expr") :=
  ⟨rfl, rfl⟩

/-- C2 (amended): omitting the sub-condition of `ConditionNot`, or either
operand of one of the five fixed-kind comparison constructors, raises a
`TypeError` at the call; but the generic `ConditionComparison` base accepts
construction with absent operands (they default to `None`) and the failure for
its missing operands occurs at render time. -/
theorem missing_operand_rejected_at_call (l r : Option PyVal) (h : l = none ∨ r = none) :
    ConditionNot_call none = tyErr ∧
    ConditionEquals_call l r = tyErr ∧
    ConditionGreaterThan_call l r = tyErr ∧
    ConditionGreaterThanOrEqualTo_call l r = tyErr ∧
    ConditionLessThan_call l r = tyErr ∧
    ConditionLessThanOrEqualTo_call l r = tyErr ∧
    (ConditionComparison_call none none none).toOption.map to_request =
      some (.error "AttributeError: object has no attribute expr") := by
  obtain h | h := h
  · subst h
    exact ⟨rfl, by cases r <;> rfl, by cases r <;> rfl, by cases r <;> rfl,
           by cases r <;> rfl, by cases r <;> rfl, rfl⟩
  · subst h
    exact ⟨rfl, by cases l <;> rfl, by cases l <;> rfl, by cases l <;> rfl,
           by cases l <;> rfl, by cases l <;> rfl, rfl⟩

/-- Witness for C2 (amended) with the left argument omitted and the right
argument supplied. -/
theorem missing_operand_rejected_at_call_witness :
    ((none : Option PyVal) = none ∨ (some (PyVal.prim (.int 0)) : Option PyVal) = none) ∧
    (ConditionNot_call none = tyErr ∧
    ConditionEquals_call none (some (.prim (.int 0))) = tyErr ∧
    ConditionGreaterThan_call none (some (.prim (.int 0))) = tyErr ∧
    ConditionGreaterThanOrEqualTo_call none (some (.prim (.int 0))) = tyErr ∧
    ConditionLessThan_call none (some (.prim (.int 0))) = tyErr ∧
    ConditionLessThanOrEqualTo_call none (some (.prim (.int 0))) = tyErr ∧
    (ConditionComparison_call none none none).toOption.map to_request =
      some (.error "AttributeError: object has no attribute expr")) :=
  ⟨Or.inl rfl, missing_operand_rejected_at_call none (some (.prim (.int 0))) (Or.inl rfl)⟩

/-- C3: `primitive_or_expr` returns the operand's rendered expression (`v.expr`)
on exactly the four symbolic classes (execution variable, expression,
parameter, property), and returns every other value — primitive scalars,
`None`, lists, dicts — unchanged, without raising. -/
theorem primitive_or_expr_cases (e : PyVal) (p : Primitive) (xs : List PyVal)
    (kvs : List (String × PyVal)) :
    (primitive_or_expr (.execVar e) = e ∧ exprAttr (.execVar e) = .ok e) ∧
    (primitive_or_expr (.expression e) = e ∧ exprAttr (.expression e) = .ok e) ∧
    (primitive_or_expr (.parameter e) = e ∧ exprAttr (.parameter e) = .ok e) ∧
    (primitive_or_expr (.propertyVal e) = e ∧ exprAttr (.propertyVal e) = .ok e) ∧
    primitive_or_expr (.prim p) = .prim p ∧
    primitive_or_expr .noneVal = .noneVal ∧
    primitive_or_expr (.list xs) = .list xs ∧
    primitive_or_expr (.dict kvs) = .dict kvs :=
  ⟨⟨rfl, rfl⟩, ⟨rfl, rfl⟩, ⟨rfl, rfl⟩, ⟨rfl, rfl⟩, rfl, rfl, rfl, rfl⟩

/-- C4 (counterexample): `ConditionIn` applies no defaulting to `in_values` —
omitting the argument raises a `TypeError`, while passing an explicitly empty
list succeeds, so the two calls are distinguishable. -/
theorem membership_in_values_required :
    ConditionIn_call (some xRef) none = tyErr ∧
    ConditionIn_call (some xRef) (some []) = .ok (.inCond xRef []) ∧
    ConditionIn_call (some xRef) none ≠ ConditionIn_call (some xRef) (some []) :=
  ⟨rfl, rfl, fun h => Except.noConfusion h⟩

/-- C4 (amended): the "or []" defaulting belongs to `ConditionOr`, whose
omitted argument and explicitly empty list are indistinguishable (both store an
empty sequence); `ConditionIn` requires `in_values` as a mandatory argument
(omission raises) and stores the supplied list unchanged. -/
theorem membership_and_disjunction_defaults (v : PyVal) (ivs : List PyVal) :
    ConditionIn_call (some v) (some ivs) = .ok (.inCond v ivs) ∧
    ConditionIn_call (some v) none = tyErr ∧
    ConditionOr_call none = .ok (.orCond []) ∧
    ConditionOr_call (some []) = .ok (.orCond []) :=
  ⟨rfl, rfl, rfl, rfl⟩

/-- C5: each of the eight public variant constructors fixes its kind at
construction (no kind parameter appears in their signatures), and whenever the
node renders, the "Type" field is that variant's fixed wire string: `Equals`,
`GreaterThan`, `GreaterThanOrEqualTo`, `LessThan`, `LessThanOrEqualTo`, `In`,
`Not`, `Or`.  Stated as exact render equations, which also show the kind is
never altered after construction. -/
theorem variant_kind_fixed (a b v : PyVal) (vs : List PyVal) (c : Condition)
    (cs : List Condition) :
    to_request (ConditionEquals a b) =
      (exprAttr a).map (fun le => .dict [("Type", .prim (.str "Equals")), ("LeftValue", le),
                                         ("RightValue", primitive_or_expr b)]) ∧
    to_request (ConditionGreaterThan a b) =
      (exprAttr a).map (fun le => .dict [("Type", .prim (.str "GreaterThan")), ("LeftValue", le),
                                         ("RightValue", primitive_or_expr b)]) ∧
    to_request (ConditionGreaterThanOrEqualTo a b) =
      (exprAttr a).map (fun le => .dict [("Type", .prim (.str "GreaterThanOrEqualTo")),
                                         ("LeftValue", le),
                                         ("RightValue", primitive_or_expr b)]) ∧
    to_request (ConditionLessThan a b) =
      (exprAttr a).map (fun le => .dict [("Type", .prim (.str "LessThan")), ("LeftValue", le),
                                         ("RightValue", primitive_or_expr b)]) ∧
    to_request (ConditionLessThanOrEqualTo a b) =
      (exprAttr a).map (fun le => .dict [("Type", .prim (.str "LessThanOrEqualTo")),
                                         ("LeftValue", le),
                                         ("RightValue", primitive_or_expr b)]) ∧
    to_request (ConditionIn v vs) =
      (exprAttr v).map (fun ve => .dict [("Type", .prim (.str "In")), ("QueryValue", ve),
                                         ("Values", .list (vs.map primitive_or_expr))]) ∧
    to_request (ConditionNot c) =
      (to_request c).map (fun r => .dict [("Type", .prim (.str "Not")), ("Expression", r)]) ∧
    to_request (ConditionOr cs) =
      (to_request_list cs).map
        (fun rs => .dict [("Type", .prim (.str "Or")), ("Conditions", .list rs)]) := by
  refine ⟨?_, ?_, ?_, ?_, ?_, ?_, ?_, ?_⟩
  · cases h : exprAttr a <;>
      simp [to_request, ConditionEquals, h, ConditionTypeEnum.value, Except.map]
  · cases h : exprAttr a <;>
      simp [to_request, ConditionGreaterThan, h, ConditionTypeEnum.value, Except.map]
  · cases h : exprAttr a <;>
      simp [to_request, ConditionGreaterThanOrEqualTo, h, ConditionTypeEnum.value, Except.map]
  · cases h : exprAttr a <;>
      simp [to_request, ConditionLessThan, h, ConditionTypeEnum.value, Except.map]
  · cases h : exprAttr a <;>
      simp [to_request, ConditionLessThanOrEqualTo, h, ConditionTypeEnum.value, Except.map]
  · cases h : exprAttr v <;>
      simp [to_request, ConditionIn, h, ConditionTypeEnum.value, Except.map]
  · cases h : to_request c <;>
      simp [to_request, ConditionNot, h, ConditionTypeEnum.value, Except.map]
  · rw [ConditionOr_eq_orCond]
    cases h : to_request_list cs <;>
      simp [to_request, h, ConditionTypeEnum.value, Except.map]

/-- C6: rendering a Membership node with symbolic value `x` (whose `expr` is
`xe`) and candidates `cs` produces exactly `Type = "In"`, `QueryValue = xe`,
`Values = [resolve(c) for c in cs]`. -/
theorem membership_render (x xe : PyVal) (hx : exprAttr x = .ok xe) (cs : List PyVal) :
    to_request (ConditionIn x cs) =
      .ok (.dict [("Type", .prim (.str "In")), ("QueryValue", xe),
                  ("Values", .list (cs.map primitive_or_expr))]) := by
  simp [to_request, ConditionIn, hx, ConditionTypeEnum.value]

/-- Witness for C6 at the spec's own example: `Membership(x, [1, "a", y])` with
`x` an execution variable and `y` a parameter. -/
theorem membership_render_witness :
    exprAttr xRef = .ok (.dict [("Get", .prim (.str "x"))]) ∧
    to_request (ConditionIn xRef [.prim (.int 1), .prim (.str "a"), pRef]) =
      .ok (.dict [("Type", .prim (.str "In")),
                  ("QueryValue", .dict [("Get", .prim (.str "x"))]),
                  ("Values", .list [.prim (.int 1), .prim (.str "a"),
                                    .dict [("Get", .prim (.str "p"))]])]) :=
  ⟨rfl, membership_render xRef (.dict [("Get", .prim (.str "x"))]) rfl
          [.prim (.int 1), .prim (.str "a"), pRef]⟩

/-- C7: rendering a Negation node wrapping `c` produces exactly
`Type = "Not"`, `Expression = render(c)` — the `Expression` field is the full
recursive rendering of the inner condition (and a failure inside propagates). -/
theorem negation_render (c : Condition) :
    to_request (ConditionNot c) =
      (to_request c).map
        (fun r => PyVal.dict [("Type", .prim (.str "Not")), ("Expression", r)]) := by
  cases h : to_request c <;>
    simp [to_request, ConditionNot, h, ConditionTypeEnum.value, Except.map]

/-- C8: a Disjunction constructed with the sequence omitted defaults to the
empty sequence, and both it and `ConditionOr([])` render exactly
`Type = "Or"`, `Conditions = []`. -/
theorem disjunction_empty_default :
    ConditionOr_call none = .ok (.orCond []) ∧
    ConditionOr_call (some []) = .ok (.orCond []) ∧
    to_request (.orCond []) =
      .ok (.dict [("Type", .prim (.str "Or")), ("Conditions", .list [])]) :=
  ⟨rfl, rfl, rfl⟩

/-- C9: for any supplied candidate sequence of a Membership and any supplied
term sequence of a Disjunction, the rendered `Values` / `Conditions` sequence
is the element-wise image (`primitive_or_expr` for candidates, `to_request`
for terms) of the supplied sequence in exactly the supplied order
(`List.map` respectively `List.Forall₂` over the same lists). -/
theorem render_preserves_order (x xe : PyVal) (vs : List PyVal) (cs : List Condition)
    (rs : List PyVal) :
    (exprAttr x = .ok xe →
      to_request (ConditionIn x vs) =
        .ok (.dict [("Type", .prim (.str "In")), ("QueryValue", xe),
                    ("Values", .list (List.map primitive_or_expr vs))])) ∧
    (to_request_list cs = .ok rs →
      to_request (ConditionOr cs) =
        .ok (.dict [("Type", .prim (.str "Or")), ("Conditions", .list rs)]) ∧
      List.Forall₂ (fun c r => to_request c = Except.ok r) cs rs) := by
  constructor
  · intro hx
    simp [to_request, ConditionIn, hx, ConditionTypeEnum.value]
  · intro hcs
    refine ⟨?_, to_request_list_forall2 cs rs hcs⟩
    rw [ConditionOr_eq_orCond]
    simp [to_request, hcs, ConditionTypeEnum.value]

/-- Witness for C9 at a concrete Membership (candidates in a swapped order)
and a concrete one-term Disjunction. -/
theorem render_preserves_order_witness :
    exprAttr xRef = .ok (.dict [("Get", .prim (.str "x"))]) ∧
    to_request_list [ConditionOr []] =
      .ok [.dict [("Type", .prim (.str "Or")), ("Conditions", .list [])]] ∧
    to_request (ConditionIn xRef [.prim (.int 2), .prim (.int 1)]) =
      .ok (.dict [("Type", .prim (.str "In")),
                  ("QueryValue", .dict [("Get", .prim (.str "x"))]),
                  ("Values", .list (List.map primitive_or_expr
                                     [.prim (.int 2), .prim (.int 1)]))]) ∧
    (to_request (ConditionOr [ConditionOr []]) =
      .ok (.dict [("Type", .prim (.str "Or")),
                  ("Conditions",
                   .list [.dict [("Type", .prim (.str "Or")), ("Conditions", .list [])]])]) ∧
     List.Forall₂ (fun c r => to_request c = Except.ok r) [ConditionOr []]
       [.dict [("Type", .prim (.str "Or")), ("Conditions", .list [])]]) :=
  ⟨rfl, rfl,
   (render_preserves_order xRef (.dict [("Get", .prim (.str "x"))])
      [.prim (.int 2), .prim (.int 1)] [ConditionOr []]
      [.dict [("Type", .prim (.str "Or")), ("Conditions", .list [])]]).1 rfl,
   (render_preserves_order xRef (.dict [("Get", .prim (.str "x"))])
      [.prim (.int 2), .prim (.int 1)] [ConditionOr []]
      [.dict [("Type", .prim (.str "Or")), ("Conditions", .list [])]]).2 rfl⟩

/-- C10: rendering terminates and is total on every finite condition tree with
well-typed operands — for every well-formed tree the recursive `to_request`
traversal returns a result. -/
theorem render_total (c : Condition) (h : WellFormedB c = true) :
    ∃ r, to_request c = Except.ok r :=
  render_total_aux c h

/-- Witness for C10 at a concrete nested tree (a negation of a comparison
inside a disjunction). -/
theorem render_total_witness :
    WellFormedB (ConditionOr [ConditionNot (ConditionEquals xRef (.prim (.int 1)))]) = true ∧
    ∃ r, to_request (ConditionOr [ConditionNot (ConditionEquals xRef (.prim (.int 1)))]) =
      Except.ok r :=
  ⟨rfl, render_total (ConditionOr [ConditionNot (ConditionEquals xRef (.prim (.int 1)))]) rfl⟩

end Conditions
